import Mathlib

/-!
Verification of the Tabler (2003) snow-drift transport model implemented in
`functions/Snow_drift.py` (with an identical numerical core duplicated in
`Pages/Snowdrift.py`).

The Python code works on floating-point numbers; the embedding models the
arithmetic over the real numbers, with `x ^ y` denoting the real power
(`Real.rpow`), which agrees with Python's `**` on the non-negative inputs the
claims quantify over.  Python's `float("nan")` "no result" sentinel and the
`raise ValueError` error channel are modelled with `Option`: `none` stands for
the sentinel / the raised error, `some x` for a normally returned value.
-/

open Real Filter

noncomputable section

namespace SnowDrift

/-- Python's float modulus `a % b` for a positive divisor `b`: the result has
the sign of the divisor, i.e. lies in `[0, b)`.  Used by `sector_index`. -/
def pymod (a b : ℝ) : ℝ := a - b * ⌊a / b⌋

/-- Embedding of `compute_Qupot(hourly_wind_speeds, dt=3600)`:
`sum((u ** 3.8) * dt for u in hourly_wind_speeds) / 233847`. -/
def compute_Qupot (hourly_wind_speeds : List ℝ) (dt : ℝ) : ℝ :=
  (hourly_wind_speeds.map (fun u => u ^ (3.8 : ℝ) * dt)).sum / 233847

/-- Embedding of `sector_index(direction)`:
`int(((direction + 11.25) % 360) // 22.5)`. -/
def sector_index (direction : ℝ) : ℤ :=
  ⌊pymod (direction + 11.25) 360 / 22.5⌋

lemma pymod_nonneg (a : ℝ) {b : ℝ} (hb : 0 < b) : 0 ≤ pymod a b := by
  have h := Int.floor_le (a / b)
  have : b * ⌊a / b⌋ ≤ b * (a / b) := by
    exact mul_le_mul_of_nonneg_left h (le_of_lt hb)
  have hb' : b ≠ 0 := ne_of_gt hb
  rw [mul_div_cancel₀ a hb'] at this
  simpa [pymod] using this

lemma pymod_lt (a : ℝ) {b : ℝ} (hb : 0 < b) : pymod a b < b := by
  have h := Int.lt_floor_add_one (a / b)
  have h2 : a < b * (⌊a / b⌋ + 1) := by
    have h3 := mul_lt_mul_of_pos_left h hb
    rwa [mul_div_cancel₀ a (ne_of_gt hb)] at h3
  simp only [pymod]
  nlinarith [h2]

lemma sector_index_nonneg (direction : ℝ) : 0 ≤ sector_index direction := by
  have h := pymod_nonneg (direction + 11.25) (b := 360) (by norm_num)
  have : (0 : ℝ) ≤ pymod (direction + 11.25) 360 / 22.5 := by positivity
  exact Int.floor_nonneg.mpr this

lemma sector_index_lt (direction : ℝ) : sector_index direction < 16 := by
  have h := pymod_lt (direction + 11.25) (b := 360) (by norm_num)
  have : pymod (direction + 11.25) 360 / 22.5 < 16 := by
    rw [div_lt_iff₀ (by norm_num : (0 : ℝ) < 22.5)]
    linarith
  exact Int.floor_lt.mpr (by exact_mod_cast this)

/-- The 16-sector index as a `Fin 16`; by `sector_index_nonneg` and
`sector_index_lt` the conversion never truncates. -/
def sectorFin (direction : ℝ) : Fin 16 :=
  ⟨(sector_index direction).toNat, by
    have h1 := sector_index_nonneg direction
    have h2 := sector_index_lt direction
    omega⟩

/-- Embedding of `compute_sector_transport(hourly_wind_speeds, hourly_wind_dirs,
dt=3600)`: starts from 16 zeroed sectors and, for each `(u, d)` pair produced by
`zip` (which silently stops at the shorter sequence), adds
`(u ** 3.8) * dt / 233847` to the sector selected by `sector_index(d)`. -/
def compute_sector_transport (hourly_wind_speeds hourly_wind_dirs : List ℝ)
    (dt : ℝ) : Fin 16 → ℝ :=
  (hourly_wind_speeds.zip hourly_wind_dirs).foldl
    (fun sectors ud =>
      Function.update sectors (sectorFin ud.2)
        (sectors (sectorFin ud.2) + ud.1 ^ (3.8 : ℝ) * dt / 233847))
    (fun _ => 0)

/-- The control regime recorded by `compute_snow_transport` ("Wind controlled" /
"Snowfall controlled" strings in the source, modelled as an enumeration). -/
inductive Control
| windControlled
| snowfallControlled
deriving DecidableEq

/-- The record returned by `compute_snow_transport` (the Python dict with keys
`Qupot (kg/m)`, `Qspot (kg/m)`, `Srwe (mm)`, `Qinf (kg/m)`, `Qt (kg/m)`,
`Control`). -/
structure TransportEstimate where
  Qupot : ℝ
  Qspot : ℝ
  Srwe : ℝ
  Qinf : ℝ
  Qt : ℝ
  control : Control

/-- Embedding of `compute_snow_transport(T, F, theta, Swe, hourly_wind_speeds,
dt=3600)`. -/
def compute_snow_transport (T F theta Swe : ℝ) (hourly_wind_speeds : List ℝ)
    (dt : ℝ) : TransportEstimate :=
  let Qupot := compute_Qupot hourly_wind_speeds dt
  let Qspot := 0.5 * T * Swe
  let Srwe := theta * Swe
  let Qinf := if Qupot > Qspot then 0.5 * T * Srwe else Qupot
  let control := if Qupot > Qspot then Control.snowfallControlled
    else Control.windControlled
  let Qt := Qinf * (1 - (0.14 : ℝ) ^ (F / T))
  ⟨Qupot, Qspot, Srwe, Qinf, Qt, control⟩

/-- One hourly meteorological observation (one dataframe row): time is modelled
as an integer hour index, the four measured fields as reals. -/
structure Obs where
  time : ℤ
  temp : ℝ
  precip : ℝ
  windSpeed : ℝ
  windDir : ℝ

/-- Embedding of the row-wise `Swe_hourly` lambda:
`row["precipitation (mm)"] if row["temperature_2m (°C)"] < 1 else 0`. -/
def swe_hourly (temp precip : ℝ) : ℝ := if temp < 1 then precip else 0

/-- The summed snow water equivalent `Swe_total = df["Swe_hourly"].sum()`. -/
def swe_total (obs : List Obs) : ℝ :=
  (obs.map (fun r => swe_hourly r.temp r.precip)).sum

/-- Embedding of `_filter_range`: keep rows with `start_date <= time <=
end_date` (inclusive on both ends). -/
def filter_range (obs : List Obs) (start_date end_date : ℤ) : List Obs :=
  obs.filter (fun r => start_date ≤ r.time ∧ r.time ≤ end_date)

/-- Embedding of the computational core of `calculate_snow_drift` after the CSV
has been loaded into `obs`: filter to the date range, return `float("nan")`
(modelled as `none`) on an empty range, otherwise compute `Swe_total`, collect
the wind speeds, and run `compute_snow_transport` with the fixed parameters
`T = 3000`, `F = 30000`, `theta = 0.5`, extracting `Qt`. -/
def calculate_snow_drift (obs : List Obs) (start_date end_date : ℤ) :
    Option ℝ :=
  let df_period := filter_range obs start_date end_date
  if df_period.isEmpty then none
  else
    let Swe_total := swe_total df_period
    let wind_speeds := df_period.map (fun r => r.windSpeed)
    some (compute_snow_transport 3000 30000 0.5 Swe_total wind_speeds 3600).Qt

/-- Embedding of `compute_average_sector(df)`: the dataframe grouped by season
is modelled as a list of per-season observation lists; for each season compute
the 16 sector transports, then average element-wise; with no seasons return the
16-element zero array `np.zeros(16)`. -/
def compute_average_sector (groups : List (List Obs)) : Fin 16 → ℝ :=
  let sectors_list := groups.map (fun g =>
    compute_sector_transport (g.map (fun r => r.windSpeed))
      (g.map (fun r => r.windDir)) 3600)
  if sectors_list.isEmpty then fun _ => 0
  else fun i => (sectors_list.map (fun s => s i)).sum / sectors_list.length

/-- Embedding of Python's `str.lower()` as used on the fence-type strings:
lower-cases each character (structurally, so that the kernel can evaluate it on
literals). -/
def str_lower (s : String) : String := ⟨s.data.map Char.toLower⟩

/-- Embedding of `compute_fence_height(Qt, fence_type)`: lower-case the fence
type, pick the factor (Wyoming 8.5, slat-and-wire 7.7, solid 2.9), and return
`(Qt / 1000 / factor) ** (1 / 2.2)`; an unsupported type raises `ValueError`,
modelled as `none`. -/
def compute_fence_height (Qt : ℝ) (fence_type : String) : Option ℝ :=
  let ft := str_lower fence_type
  let factorOpt : Option ℝ :=
    if ft = "wyoming" then some 8.5
    else if ft = "slat-and-wire" ∨ ft = "slat and wire" then some 7.7
    else if ft = "solid" then some 2.9
    else none
  factorOpt.map (fun factor => (Qt / 1000 / factor) ^ ((1 : ℝ) / 2.2))

/-! Helper lemmas shared by several claims. -/

lemma compute_Qupot_nonneg (ws : List ℝ) (hw : ∀ u ∈ ws, 0 ≤ u) :
    0 ≤ compute_Qupot ws 3600 := by
  unfold compute_Qupot
  apply div_nonneg _ (by norm_num)
  apply List.sum_nonneg
  intro x hx
  simp only [List.mem_map] at hx
  obtain ⟨u, hu, rfl⟩ := hx
  exact mul_nonneg (Real.rpow_nonneg (hw u hu) _) (by norm_num)

/-! Claim theorems. -/

/-- C1: for every `T > 0`, `F > 0`, `theta`, snowfall total `Swe` and
non-negative hourly wind speeds, `compute_snow_transport` computes
`Qupot = sum(u^3.8 * 3600)/233847`, `Qspot = 0.5*T*Swe`, `Srwe = theta*Swe`;
if `Qupot > Qspot` (strictly) it sets `Qinf = 0.5*T*Srwe` with the
snowfall-controlled regime, otherwise (including exact equality) `Qinf = Qupot`
with the wind-controlled regime; and it returns
`Qt = Qinf * (1 - 0.14^(F/T))`. -/
theorem C1_compute_snow_transport_formulas (T F theta Swe : ℝ)
    (ws : List ℝ) (hT : 0 < T) (hF : 0 < F) (hw : ∀ u ∈ ws, 0 ≤ u) :
    (compute_snow_transport T F theta Swe ws 3600).Qupot =
      (ws.map (fun u => u ^ (3.8 : ℝ) * 3600)).sum / 233847 ∧
    (compute_snow_transport T F theta Swe ws 3600).Qspot = 0.5 * T * Swe ∧
    (compute_snow_transport T F theta Swe ws 3600).Srwe = theta * Swe ∧
    (compute_Qupot ws 3600 > 0.5 * T * Swe →
      (compute_snow_transport T F theta Swe ws 3600).Qinf =
        0.5 * T * (theta * Swe) ∧
      (compute_snow_transport T F theta Swe ws 3600).control =
        Control.snowfallControlled) ∧
    (compute_Qupot ws 3600 ≤ 0.5 * T * Swe →
      (compute_snow_transport T F theta Swe ws 3600).Qinf =
        compute_Qupot ws 3600 ∧
      (compute_snow_transport T F theta Swe ws 3600).control =
        Control.windControlled) ∧
    (compute_snow_transport T F theta Swe ws 3600).Qt =
      (compute_snow_transport T F theta Swe ws 3600).Qinf *
        (1 - (0.14 : ℝ) ^ (F / T)) := by
  refine ⟨rfl, rfl, rfl, ?_, ?_, rfl⟩
  · intro hgt
    constructor
    · show (if compute_Qupot ws 3600 > 0.5 * T * Swe then
          0.5 * T * (theta * Swe) else compute_Qupot ws 3600) =
          0.5 * T * (theta * Swe)
      exact if_pos hgt
    · show (if compute_Qupot ws 3600 > 0.5 * T * Swe then
          Control.snowfallControlled else Control.windControlled) =
          Control.snowfallControlled
      exact if_pos hgt
  · intro hle
    have hng : ¬ compute_Qupot ws 3600 > 0.5 * T * Swe := not_lt.mpr hle
    constructor
    · show (if compute_Qupot ws 3600 > 0.5 * T * Swe then
          0.5 * T * (theta * Swe) else compute_Qupot ws 3600) =
          compute_Qupot ws 3600
      exact if_neg hng
    · show (if compute_Qupot ws 3600 > 0.5 * T * Swe then
          Control.snowfallControlled else Control.windControlled) =
          Control.windControlled
      exact if_neg hng

/-- C1 witness: concrete instantiation at `T = 3000`, `F = 30000`,
`theta = 0.5`, `Swe = 2`, no wind. -/
theorem C1_compute_snow_transport_formulas_witness :
    (compute_snow_transport 3000 30000 0.5 2 [] 3600).Qspot =
      0.5 * 3000 * 2 :=
  (C1_compute_snow_transport_formulas 3000 30000 0.5 2 []
    (by norm_num) (by norm_num) (by simp)).2.1

/-- C10: if the snow water equivalent total is `0` then `compute_snow_transport`
returns `Qt = 0` for every `T > 0`, `F > 0`, `theta`, and non-negative wind
speeds, however strong the winds are. -/
theorem C10_zero_swe_zero_Qt (T F theta : ℝ) (ws : List ℝ)
    (hT : 0 < T) (hF : 0 < F) (hw : ∀ u ∈ ws, 0 ≤ u) :
    (compute_snow_transport T F theta 0 ws 3600).Qt = 0 := by
  have hQu := compute_Qupot_nonneg ws hw
  simp only [compute_snow_transport]
  split_ifs with h
  · simp
  · have h0 : compute_Qupot ws 3600 = 0 := by
      have hle : compute_Qupot ws 3600 ≤ 0.5 * T * 0 := not_lt.mp h
      simp only [mul_zero] at hle
      exact le_antisymm hle hQu
    simp [h0]

/-- C10 witness: strong constant wind (25 m/s for three hours) but zero snow
still gives `Qt = 0`. -/
theorem C10_zero_swe_zero_Qt_witness :
    (compute_snow_transport 3000 30000 0.5 0 [25, 25, 25] 3600).Qt = 0 :=
  C10_zero_swe_zero_Qt 3000 30000 0.5 [25, 25, 25] (by norm_num) (by norm_num)
    (by intro u hu
        simp only [List.mem_cons, List.not_mem_nil, or_false, or_self] at hu
        subst hu
        norm_num)

/-- C4: an hour contributes its precipitation to the snow water equivalent if
and only if its temperature is strictly below 1 degree Celsius (otherwise it
contributes 0); consequently, if every hour has temperature at least 1 the
total `Swe_total` is `0` regardless of precipitation. -/
theorem C4_temperature_gating (obs : List Obs) :
    ((∀ r ∈ obs, 1 ≤ r.temp) → swe_total obs = 0) ∧
    swe_total obs = (obs.map (fun r => if r.temp < 1 then r.precip else 0)).sum ∧
    (∀ t p : ℝ, (t < 1 → swe_hourly t p = p) ∧ (1 ≤ t → swe_hourly t p = 0)) := by
  refine ⟨?_, rfl, ?_⟩
  · intro h
    unfold swe_total
    apply List.sum_eq_zero
    intro x hx
    simp only [List.mem_map] at hx
    obtain ⟨r, hr, rfl⟩ := hx
    simp [swe_hourly, not_lt.mpr (h r hr)]
  · intro t p
    exact ⟨fun h => by simp [swe_hourly, h],
      fun h => by simp [swe_hourly, not_lt.mpr h]⟩

/-- C4 witness: a single warm hour (5 °C) with heavy precipitation (100 mm)
contributes nothing. -/
theorem C4_temperature_gating_witness :
    swe_total [⟨0, 5, 100, 0, 0⟩] = 0 :=
  (C4_temperature_gating [⟨0, 5, 100, 0, 0⟩]).1
    (by intro r hr
        simp only [List.mem_singleton] at hr
        subst hr
        norm_num)

/-- C5: the missing-data degrade policy: `compute_Qupot` on an empty speed list
returns `0`; `calculate_snow_drift` returns the not-a-number sentinel (modelled
as `none`) when no observation falls in the requested date range; and
`compute_average_sector` returns the all-zero 16-element array when there are
zero seasons of data. -/
theorem C5_missing_data_degrade (obs : List Obs) (s e : ℤ)
    (h : filter_range obs s e = []) :
    calculate_snow_drift obs s e = none ∧
    compute_Qupot [] 3600 = 0 ∧
    ∀ i : Fin 16, compute_average_sector [] i = 0 := by
  refine ⟨?_, ?_, ?_⟩
  · simp [calculate_snow_drift, h]
  · simp [compute_Qupot]
  · intro i
    simp [compute_average_sector]

/-- C5 witness: an observation set lying entirely outside the requested range. -/
theorem C5_missing_data_degrade_witness :
    calculate_snow_drift [⟨10, 0, 1, 5, 90⟩] 0 5 = none :=
  (C5_missing_data_degrade [⟨10, 0, 1, 5, 90⟩] 0 5
    (by simp [filter_range])).1

/-- C6: `compute_fence_height` returns `H = (Qt/1000/factor)^(1/2.2)` with
factor 8.5 for the Wyoming type, 7.7 for slat-and-wire, 2.9 for solid; every
unsupported fence type raises the invalid-parameter error (modelled as `none`);
and `Qt = 8.5 * 1000` with the Wyoming type yields exactly `H = 1`. -/
theorem C6_fence_height (Qt : ℝ) (ft : String) :
    (str_lower ft = "wyoming" →
      compute_fence_height Qt ft =
        some ((Qt / 1000 / 8.5) ^ ((1 : ℝ) / 2.2))) ∧
    (str_lower ft = "slat-and-wire" ∨ str_lower ft = "slat and wire" →
      compute_fence_height Qt ft =
        some ((Qt / 1000 / 7.7) ^ ((1 : ℝ) / 2.2))) ∧
    (str_lower ft = "solid" →
      compute_fence_height Qt ft =
        some ((Qt / 1000 / 2.9) ^ ((1 : ℝ) / 2.2))) ∧
    (str_lower ft ≠ "wyoming" → str_lower ft ≠ "slat-and-wire" →
      str_lower ft ≠ "slat and wire" → str_lower ft ≠ "solid" →
      compute_fence_height Qt ft = none) ∧
    compute_fence_height (8.5 * 1000) "Wyoming" = some 1 := by
  refine ⟨?_, ?_, ?_, ?_, ?_⟩
  · intro h
    simp [compute_fence_height, h]
  · intro h
    rcases h with h | h <;> simp [compute_fence_height, h]
  · intro h
    simp [compute_fence_height, h]
  · intro h1 h2 h3 h4
    simp [compute_fence_height, h1, h2, h3, h4]
  · have h1 : str_lower "Wyoming" = "wyoming" := rfl
    norm_num [compute_fence_height, h1, Real.one_rpow]

/-- C6 witness: an unsupported fence type ("picket") yields the error value. -/
theorem C6_fence_height_witness :
    compute_fence_height 8500 "picket" = none :=
  (C6_fence_height 8500 "picket").2.2.2.1 (by decide) (by decide) (by decide)
    (by decide)

lemma sum_foldl_update (l : List (ℝ × ℝ)) (dt : ℝ) (init : Fin 16 → ℝ) :
    ∑ i, (l.foldl (fun sectors ud =>
      Function.update sectors (sectorFin ud.2)
        (sectors (sectorFin ud.2) + ud.1 ^ (3.8 : ℝ) * dt / 233847)) init) i =
    (∑ i, init i) + (l.map (fun ud => ud.1 ^ (3.8 : ℝ) * dt / 233847)).sum := by
  induction l generalizing init with
  | nil => simp
  | cons hd tl ih =>
    simp only [List.foldl_cons, List.map_cons, List.sum_cons]
    rw [ih]
    have hstep : ∑ i, Function.update init (sectorFin hd.2)
        (init (sectorFin hd.2) + hd.1 ^ (3.8 : ℝ) * dt / 233847) i =
        (∑ i, init i) + hd.1 ^ (3.8 : ℝ) * dt / 233847 := by
      rw [Finset.sum_update_of_mem (Finset.mem_univ _),
        ← Finset.add_sum_erase _ _ (Finset.mem_univ (sectorFin hd.2))]
      simp only [Finset.erase_eq]
      ring
    rw [hstep]
    ring

lemma list_sum_map_div (l : List ℝ) (f : ℝ → ℝ) (c : ℝ) :
    (l.map (fun x => f x / c)).sum = (l.map f).sum / c := by
  induction l with
  | nil => simp
  | cons h t ih => simp [ih, add_div]

lemma list_sum_pos_of_mem {l : List ℝ} (h0 : ∀ x ∈ l, 0 ≤ x) {x : ℝ}
    (hx : x ∈ l) (hxpos : 0 < x) : 0 < l.sum := by
  induction l with
  | nil => simp at hx
  | cons a t ih =>
    simp only [List.mem_cons] at hx
    rw [List.sum_cons]
    rcases hx with rfl | hx
    · have ht : 0 ≤ t.sum :=
        List.sum_nonneg (fun y hy => h0 y (List.mem_cons_of_mem _ hy))
      linarith
    · have ha : 0 ≤ a := h0 a (List.mem_cons_self a t)
      have := ih (fun y hy => h0 y (List.mem_cons_of_mem _ hy)) hx
      linarith

lemma zip_eq_zip_take (l1 l2 : List ℝ) :
    l1.zip l2 = (l1.take l2.length).zip (l2.take l1.length) := by
  induction l1 generalizing l2 with
  | nil => simp
  | cons a t ih =>
    cases l2 with
    | nil => simp
    | cons b s => simp [List.zip_cons_cons, ih s]

/-- C2: for equal-length sequences of non-negative wind speeds and wind
directions, the 16 sector transports of `compute_sector_transport` sum exactly
to `compute_Qupot` on the same speeds. -/
theorem C2_sector_sum_invariant (us ds : List ℝ)
    (hlen : us.length = ds.length) (hw : ∀ u ∈ us, 0 ≤ u) :
    ∑ i : Fin 16, compute_sector_transport us ds 3600 i =
      compute_Qupot us 3600 := by
  unfold compute_sector_transport
  rw [sum_foldl_update]
  have hz : (us.zip ds).map (fun ud => ud.1 ^ (3.8 : ℝ) * 3600 / 233847) =
      us.map (fun u => u ^ (3.8 : ℝ) * 3600 / 233847) := by
    have h1 : (us.zip ds).map Prod.fst = us :=
      List.map_fst_zip us ds (le_of_eq hlen)
    calc (us.zip ds).map (fun ud => ud.1 ^ (3.8 : ℝ) * 3600 / 233847)
        = ((us.zip ds).map Prod.fst).map
            (fun u => u ^ (3.8 : ℝ) * 3600 / 233847) := by
          rw [List.map_map]
          exact rfl
      _ = us.map (fun u => u ^ (3.8 : ℝ) * 3600 / 233847) := by rw [h1]
  rw [hz, list_sum_map_div]
  simp [compute_Qupot]

/-- C2 witness: a single hour of 1 m/s wind from due north. -/
theorem C2_sector_sum_invariant_witness :
    ∑ i : Fin 16, compute_sector_transport [1] [0] 3600 i =
      compute_Qupot [1] 3600 :=
  C2_sector_sum_invariant [1] [0] rfl
    (by intro u hu
        simp only [List.mem_singleton] at hu
        subst hu
        norm_num)

/-- C9: for every real wind direction `d`, `sector_index d` is exactly
`floor(((d + 11.25) mod 360) / 22.5)` with the modulus taken into `[0, 360)`,
and the result lies in `{0, ..., 15}`, so the `Fin 16` index used by
`compute_sector_transport` (via `sectorFin`) never leaves the 16-element
sector array. -/
theorem C9_sector_index_in_range (d : ℝ) :
    sector_index d = ⌊pymod (d + 11.25) 360 / 22.5⌋ ∧
    0 ≤ pymod (d + 11.25) 360 ∧ pymod (d + 11.25) 360 < 360 ∧
    0 ≤ sector_index d ∧ sector_index d < 16 ∧
    ((sectorFin d : Fin 16) : ℕ) = (sector_index d).toNat :=
  ⟨rfl, pymod_nonneg _ (by norm_num), pymod_lt _ (by norm_num),
    sector_index_nonneg d, sector_index_lt d, rfl⟩

/-- C3 counterexample: with one wind speed and two wind directions (mismatched
lengths) `compute_sector_transport` raises no error; it silently produces the
same 16-sector result as on the truncated inputs, and that result carries the
nonzero transport contribution of the one zipped pair. -/
theorem C3_counterexample_no_error_on_mismatch :
    compute_sector_transport [1] [0, 100] 3600 =
      compute_sector_transport [1] [0] 3600 ∧
    compute_sector_transport [1] [0, 100] 3600 (sectorFin 0) =
      3600 / 233847 := by
  constructor
  · rfl
  · show Function.update (fun _ => (0 : ℝ)) (sectorFin 0)
        ((fun _ => (0 : ℝ)) (sectorFin 0) +
          (1 : ℝ) ^ (3.8 : ℝ) * 3600 / 233847) (sectorFin 0) =
        3600 / 233847
    rw [Function.update_same]
    norm_num [Real.one_rpow]

/-- C3 amended: `compute_sector_transport` does not validate that the two
sequences have equal length; mismatched sequences are silently truncated to
the shorter one (Python `zip`), so the result always equals the result on the
mutually truncated inputs. -/
theorem C3_amended_silent_truncation (us ds : List ℝ) (dt : ℝ) :
    compute_sector_transport us ds dt =
      compute_sector_transport (us.take ds.length) (ds.take us.length) dt := by
  unfold compute_sector_transport
  rw [← zip_eq_zip_take]

/-- C7 counterexample: for the empty wind-speed sequence, scaling every speed
by `k = 2 > 1` leaves `compute_Qupot` unchanged at 0, so the claimed strict
increase fails. -/
theorem C7_counterexample_empty_speeds :
    ¬ compute_Qupot (([] : List ℝ).map (fun u => 2 * u)) 3600 >
      compute_Qupot ([] : List ℝ) 3600 := by
  simp [compute_Qupot]

/-- C7 amended: scaling all wind speeds by a constant `k > 1` strictly
increases `compute_Qupot`, provided the sequence contains at least one
strictly positive speed (for the empty or all-zero sequence `Qupot` stays 0). -/
theorem C7_amended_strict_monotonicity (us : List ℝ) (k : ℝ)
    (hw : ∀ u ∈ us, 0 ≤ u) (hk : 1 < k) (hpos : ∃ u ∈ us, 0 < u) :
    compute_Qupot (us.map (fun u => k * u)) 3600 > compute_Qupot us 3600 := by
  have hk0 : 0 ≤ k := le_trans zero_le_one (le_of_lt hk)
  unfold compute_Qupot
  rw [List.map_map]
  have hconv : us.map ((fun u => u ^ (3.8 : ℝ) * 3600) ∘ (fun u => k * u)) =
      us.map (fun u => k ^ (3.8 : ℝ) * (u ^ (3.8 : ℝ) * 3600)) := by
    apply List.map_congr_left
    intro u hu
    simp only [Function.comp_apply]
    rw [Real.mul_rpow hk0 (hw u hu)]
    ring
  rw [hconv, List.sum_map_mul_left]
  have hS : 0 < (us.map (fun u => u ^ (3.8 : ℝ) * 3600)).sum := by
    obtain ⟨u0, hu0, hu0pos⟩ := hpos
    refine list_sum_pos_of_mem ?_ (List.mem_map_of_mem _ hu0) ?_
    · intro x hx
      simp only [List.mem_map] at hx
      obtain ⟨u, hu, rfl⟩ := hx
      exact mul_nonneg (Real.rpow_nonneg (hw u hu) _) (by norm_num)
    · exact mul_pos (Real.rpow_pos_of_pos hu0pos _) (by norm_num)
  have hk38 : 1 < k ^ (3.8 : ℝ) := by
    rw [Real.one_lt_rpow_iff_of_pos (lt_trans zero_lt_one hk)]
    left
    exact ⟨hk, by norm_num⟩
  have hmul : (us.map (fun u => u ^ (3.8 : ℝ) * 3600)).sum <
      k ^ (3.8 : ℝ) * (us.map (fun u => u ^ (3.8 : ℝ) * 3600)).sum := by
    nlinarith [hS, hk38]
  linarith [hmul]

/-- C7 witness: a single 1 m/s hour scaled by `k = 2`. -/
theorem C7_amended_strict_monotonicity_witness :
    compute_Qupot (([1] : List ℝ).map (fun u => 2 * u)) 3600 >
      compute_Qupot ([1] : List ℝ) 3600 :=
  C7_amended_strict_monotonicity [1] 2
    (by intro u hu
        simp only [List.mem_singleton] at hu
        subst hu
        norm_num)
    (by norm_num)
    ⟨1, by simp, by norm_num⟩

lemma Qinf_nonneg (T F theta Swe : ℝ) (us : List ℝ) (hT : 0 ≤ T)
    (hth : 0 ≤ theta) (hSwe : 0 ≤ Swe) (hw : ∀ u ∈ us, 0 ≤ u) :
    0 ≤ (compute_snow_transport T F theta Swe us 3600).Qinf := by
  show 0 ≤ if compute_Qupot us 3600 > 0.5 * T * Swe then
    0.5 * T * (theta * Swe) else compute_Qupot us 3600
  split_ifs with h
  · exact mul_nonneg (mul_nonneg (by norm_num) hT) (mul_nonneg hth hSwe)
  · exact compute_Qupot_nonneg us hw

/-- C8: with `T > 0`, relocation coefficient `theta ≥ 0`, `Swe ≥ 0` and
non-negative wind speeds fixed (so that `Qinf ≥ 0` and is independent of the
fetch distance), `Qt = Qinf * (1 - 0.14^(F/T))` is monotone in `F`, never
exceeds `Qinf`, and tends to `Qinf` as `F` tends to infinity. -/
theorem C8_fetch_saturation (T theta Swe : ℝ) (us : List ℝ)
    (hT : 0 < T) (hth : 0 ≤ theta) (hSwe : 0 ≤ Swe)
    (hw : ∀ u ∈ us, 0 ≤ u) :
    (∀ F1 F2 : ℝ, 0 < F1 → F1 ≤ F2 →
      (compute_snow_transport T F1 theta Swe us 3600).Qt ≤
        (compute_snow_transport T F2 theta Swe us 3600).Qt) ∧
    (∀ F : ℝ, 0 < F →
      (compute_snow_transport T F theta Swe us 3600).Qt ≤
        (compute_snow_transport T F theta Swe us 3600).Qinf) ∧
    (∀ F1 F2 : ℝ,
      (compute_snow_transport T F1 theta Swe us 3600).Qinf =
        (compute_snow_transport T F2 theta Swe us 3600).Qinf) ∧
    Filter.Tendsto
      (fun F => (compute_snow_transport T F theta Swe us 3600).Qt)
      Filter.atTop
      (nhds ((compute_snow_transport T 1 theta Swe us 3600).Qinf)) := by
  have hQinf0 : 0 ≤ (compute_snow_transport T 1 theta Swe us 3600).Qinf :=
    Qinf_nonneg T 1 theta Swe us (le_of_lt hT) hth hSwe hw
  have hQt : ∀ F : ℝ, (compute_snow_transport T F theta Swe us 3600).Qt =
      (compute_snow_transport T 1 theta Swe us 3600).Qinf *
        (1 - (0.14 : ℝ) ^ (F / T)) := fun F => rfl
  refine ⟨?_, ?_, fun F1 F2 => rfl, ?_⟩
  · intro F1 F2 hF1 h12
    rw [hQt F1, hQt F2]
    have hdiv : F1 / T ≤ F2 / T := by gcongr
    have h14 : (0.14 : ℝ) ^ (F2 / T) ≤ (0.14 : ℝ) ^ (F1 / T) :=
      Real.rpow_le_rpow_of_exponent_ge (by norm_num) (by norm_num) hdiv
    exact mul_le_mul_of_nonneg_left (by linarith) hQinf0
  · intro F hF
    rw [hQt F]
    have hpos : 0 < (0.14 : ℝ) ^ (F / T) :=
      Real.rpow_pos_of_pos (by norm_num) _
    have hIeq : (compute_snow_transport T F theta Swe us 3600).Qinf =
        (compute_snow_transport T 1 theta Swe us 3600).Qinf := rfl
    rw [hIeq]
    nlinarith [hQinf0, hpos]
  · have hdiv : Filter.Tendsto (fun F : ℝ => F / T) Filter.atTop
        Filter.atTop := Filter.Tendsto.atTop_div_const hT Filter.tendsto_id
    have h2 : Filter.Tendsto (fun F : ℝ => (0.14 : ℝ) ^ (F / T))
        Filter.atTop (nhds 0) :=
      (tendsto_rpow_atTop_of_base_lt_one 0.14 (by norm_num)
        (by norm_num)).comp hdiv
    have h3 := (h2.const_sub 1).const_mul
      ((compute_snow_transport T 1 theta Swe us 3600).Qinf)
    have h4 : (compute_snow_transport T 1 theta Swe us 3600).Qinf * (1 - 0) =
        (compute_snow_transport T 1 theta Swe us 3600).Qinf := by ring
    rw [h4] at h3
    exact h3

/-- C8 witness: doubling the fetch distance from 100 m to 200 m (with the
default parameters and no wind) does not decrease `Qt`. -/
theorem C8_fetch_saturation_witness :
    (compute_snow_transport 3000 100 0.5 0 [] 3600).Qt ≤
      (compute_snow_transport 3000 200 0.5 0 [] 3600).Qt :=
  (C8_fetch_saturation 3000 0.5 0 [] (by norm_num) (by norm_num) (by norm_num)
    (by simp)).1 100 200 (by norm_num) (by norm_num)

end SnowDrift

end
